import Mathlib

/-!
Verification of `api/anime.js`: a serverless HTTP handler that scrapes an
anime-listing site and re-exposes the data as JSON over three actions
(`home`, `search`, `details`).

The embedding follows the source file closely:
* JavaScript string/number primitives (`parseInt`, truthiness, `||`,
  `split('/').pop()`, `encodeURIComponent`) are modelled as total Lean
  functions with JS semantics.
* The cheerio DOM is modelled abstractly: a `Doc` maps a selector string to
  the list of matched elements in document order; an element carries its
  text content, its attributes, and a `find` map for descendant selections.
  Selection-level `.text()` is the concatenation of the matched nodes'
  texts (hence `""` on an empty selection) and `.attr` reads the first
  matched node's attribute (hence `undefined`/`none` on an empty selection),
  exactly as in cheerio/jQuery.
* `fetch` outcomes are an oracle `String → FetchOutcome` (network error or a
  response with a status); the handler threads the list of fetched paths
  through so that "no upstream call" is a provable statement.
-/

namespace AnimeApi

/-! ### JavaScript primitives -/

/-- JS `x || d` for a string `x` that may be `undefined`: `undefined` and the
empty string are falsy. -/
def jsOrStr (v : Option String) (d : String) : String :=
  match v with
  | none => d
  | some s => if s = "" then d else s

/-- JS `n || d` for a number `n` that may be `NaN` (modelled as `none`):
`NaN` and `0` are falsy. -/
def jsOrInt (v : Option Int) (d : Int) : Int :=
  match v with
  | none => d
  | some n => if n = 0 then d else n

/-- JS truthiness test `!x` for an optional string: true when the value is
absent (`undefined`) or the empty string. -/
def jsFalsy (v : Option String) : Bool :=
  match v with
  | none => true
  | some s => s = ""

/-- Drop leading whitespace characters. -/
def trimLeftChars : List Char → List Char
  | [] => []
  | c :: rest => if c.isWhitespace then trimLeftChars rest else c :: rest

/-- Drop trailing whitespace characters. -/
def trimRightChars (cs : List Char) : List Char :=
  (trimLeftChars cs.reverse).reverse

/-- JS `s.trim()`: strip whitespace from both ends. -/
def jsTrim (s : String) : String :=
  String.mk (trimRightChars (trimLeftChars s.data))

/-- Leading-whitespace stripping, as `parseInt` performs before scanning. -/
def jsTrimStart (s : String) : String := String.mk (trimLeftChars s.data)

/-- JS `s.split(sep)` for a one-character separator: the groups between
occurrences of the separator (`""` splits to `[""]`, a trailing separator
yields a final empty group). -/
def splitOnChar (sep : Char) : List Char → List (List Char)
  | [] => [[]]
  | c :: rest =>
    if c = sep then [] :: splitOnChar sep rest
    else
      match splitOnChar sep rest with
      | [] => [[c]]
      | g :: gs => (c :: g) :: gs

/-- JS `s.split(sep).pop()`: the last group (never `undefined`, since
`split` always returns a non-empty array). -/
def jsSplitPop (s : String) (sep : Char) : String :=
  String.mk ((splitOnChar sep s.data).getLastD [])

/-- Value of a character as a digit in the given base (10 or 16), as JS
`parseInt` accepts it. -/
def digitVal (base : Nat) (c : Char) : Option Nat :=
  if c.toNat ≥ 48 ∧ c.toNat ≤ 57 then
    if c.toNat - 48 < base then some (c.toNat - 48) else none
  else if base = 16 ∧ c.toNat ≥ 97 ∧ c.toNat ≤ 102 then some (c.toNat - 97 + 10)
  else if base = 16 ∧ c.toNat ≥ 65 ∧ c.toNat ≤ 70 then some (c.toNat - 65 + 10)
  else none

/-- Longest prefix of digit values in the given base. -/
def takeDigitVals (base : Nat) : List Char → List Nat
  | [] => []
  | c :: cs =>
    match digitVal base c with
    | some d => d :: takeDigitVals base cs
    | none => []

/-- JS `parseInt(s)`: skip leading whitespace, optional sign, auto-detect a
`0x`/`0X` hex prefix, read the longest digit prefix; `NaN` (here `none`)
when no digit is found. -/
def jsParseInt (s : String) : Option Int :=
  let t := (jsTrimStart s).toList
  let sign : Int := match t with
    | c :: _ => if c = '-' then -1 else 1
    | [] => 1
  let t1 : List Char := match t with
    | '-' :: cs => cs
    | '+' :: cs => cs
    | cs => cs
  let (base, t2) : Nat × List Char := match t1 with
    | '0' :: 'x' :: cs => (16, cs)
    | '0' :: 'X' :: cs => (16, cs)
    | cs => (10, cs)
  let ds := takeDigitVals base t2
  if ds = [] then none
  else some (sign * ((ds.foldl (fun a d => a * base + d) 0 : Nat) : Int))

/-- JS `parseInt` applied to a possibly-`undefined` string: `parseInt(undefined)`
is `NaN`. -/
def jsParseIntOpt (v : Option String) : Option Int :=
  match v with
  | none => none
  | some s => jsParseInt s

/-- JS `href.split('/').pop()` after the optional-chaining guard: the final
path segment of a link target, `""` when the attribute is absent
(`?.` short-circuits to `undefined` and `|| ''` turns it into `""`). -/
def lastPathSegment (href : Option String) : String :=
  match href with
  | none => ""
  | some h => jsOrStr (some (jsSplitPop h '/')) ""

/-- Characters `encodeURIComponent` leaves unescaped. -/
def uriUnreserved (c : Char) : Bool :=
  c.isAlphanum || c = '-' || c = '_' || c = '.' || c = '!' || c = '~' ||
    c = '*' || c = Char.ofNat 39 || c = '(' || c = ')'

/-- Upper-case hex digit for a value below 16. -/
def hexDigitChar (n : Nat) : Char :=
  if n < 10 then Char.ofNat (48 + n) else Char.ofNat (65 + n - 10)

/-- Percent-encoding of one byte. -/
def pctByte (b : Nat) : String :=
  String.mk ['%', hexDigitChar (b / 16), hexDigitChar (b % 16)]

/-- JS `encodeURIComponent`: unreserved characters pass through, everything
else is percent-encoded byte-wise in UTF-8. -/
def encodeURIComponent (s : String) : String :=
  s.toList.foldl
    (fun acc c =>
      if uriUnreserved c then acc.push c
      else acc ++ String.join (((String.mk [c]).toUTF8.toList).map (fun b => pctByte b.toNat)))
    ""

/-- JS `error.message || 'Internal server error'` in the handler's catch. -/
def jsMsgOr (e : String) : String := if e = "" then "Internal server error" else e

/-! ### Abstract cheerio DOM -/

/-- A node as seen by a descendant selection: its (recursive) text content
and its attributes. -/
structure DomNode where
  text : String
  attrs : List (String × String)

/-- An element returned by a document-level selection: text content,
attributes, and `find` for descendant selections (matched nodes in
document order). -/
structure Elem where
  text : String
  attrs : List (String × String)
  find : String → List DomNode

/-- A loaded document: `select` for document-level selections (matched
elements in document order) and `selNext` for `$(sel).next()` (the next
siblings of the matched elements). -/
structure Doc where
  select : String → List Elem
  selNext : String → List DomNode

/-- Selection-level `.text()` over descendant nodes: concatenation of the
matched nodes' texts (so the empty selection yields `""`). -/
def selText (ns : List DomNode) : String := String.join (ns.map (·.text))

/-- Selection-level `.attr(name)`: read the attribute from the first matched
node, `undefined` on an empty selection. -/
def selAttr (ns : List DomNode) (name : String) : Option String :=
  match ns with
  | [] => none
  | n :: _ => n.attrs.lookup name

/-- `$(el).find(sel).text()`. -/
def findText (el : Elem) (sel : String) : String := selText (el.find sel)

/-- `$(el).find(sel).attr(name)`. -/
def findAttr (el : Elem) (sel : String) (name : String) : Option String :=
  selAttr (el.find sel) name

/-- Document-level `$(sel).text()`. -/
def docText (d : Doc) (sel : String) : String :=
  String.join ((d.select sel).map (·.text))

/-- Document-level `$(sel).attr(name)`. -/
def docAttr (d : Doc) (sel : String) (name : String) : Option String :=
  match d.select sel with
  | [] => none
  | e :: _ => e.attrs.lookup name

/-! ### Fetcher -/

/-- Outcome of the underlying `fetch` call: a rejected promise / thrown
network error, or an HTTP response with status, status text and body. -/
inductive FetchOutcome where
  | netError (msg : String)
  | response (status : Nat) (statusText : String) (body : String)

/-- JS `response.ok`: status in the 2xx range. -/
def respOk (status : Nat) : Bool := 200 ≤ status && status ≤ 299

/-- `fetchFromHiAnime(path)`: returns the body text on a 2xx response, throws
`HTTP <status>: <statusText>` on any other status, and rethrows a network
error unchanged (the catch block only logs). -/
def fetchFromHiAnime (upstream : String → FetchOutcome) (path : String) :
    Except String String :=
  match upstream path with
  | .netError m => .error m
  | .response st stTxt body =>
    if respOk st then .ok body
    else .error ("HTTP " ++ toString st ++ ": " ++ stTxt)

/-! ### Result shapes (the `data` objects the extractors build) -/

/-- One spotlight slide from the homepage. -/
structure SpotlightEntry where
  id : String
  title : String
  description : String
  poster : String
  rank : Nat

/-- One trending card from the homepage. -/
structure TrendingEntry where
  id : String
  title : String
  poster : String
  type : String
  duration : String

/-- Sub/dub episode counts, named `episodes` in the source's output objects. -/
structure EpisodeCounts where
  sub : Int
  dub : Int

/-- One search-result card. -/
structure SearchEntry where
  id : String
  title : String
  poster : String
  type : String
  duration : String
  episodes : EpisodeCounts

/-- The `data` object of `getHomePage`. -/
structure HomeData where
  spotlight : List SpotlightEntry
  trending : List TrendingEntry
  timestamp : String

/-- The `data` object of `searchAnime`. -/
structure SearchData where
  results : List SearchEntry
  currentPage : Int
  query : String

/-- The `data` object of `getAnimeDetails`. -/
structure DetailsData where
  id : String
  title : String
  poster : String
  description : String
  type : String
  status : String
  genres : List String
  episodes : EpisodeCounts

/-! ### Extractors (pure part, after `cheerio.load`) -/

/-- One spotlight entry, built from the `i`-th matched `.deslide-item`. -/
def mkSpotlightEntry (i : Nat) (el : Elem) : SpotlightEntry :=
  { id := lastPathSegment (findAttr el "a" "href")
  , title := jsTrim (findText el ".deslide-item-content h2")
  , description := jsTrim (findText el ".deslide-item-content .sc-desc")
  , poster := jsOrStr (findAttr el ".deslide-cover img" "src") ""
  , rank := i + 1 }

/-- One trending entry, built from a matched `.flw-item` on the homepage. -/
def mkTrendingEntry (el : Elem) : TrendingEntry :=
  { id := lastPathSegment (findAttr el "a.film-poster" "href")
  , title := jsTrim (findText el ".film-name")
  , poster := jsOrStr (findAttr el ".film-poster-img" "data-src") ""
  , type := jsTrim (findText el ".fdi-item:first")
  , duration := jsTrim (findText el ".fdi-duration") }

/-- One search entry, built from a matched `.flw-item` on the results page. -/
def mkSearchEntry (el : Elem) : SearchEntry :=
  { id := lastPathSegment (findAttr el "a.film-poster" "href")
  , title := jsTrim (findText el ".film-name")
  , poster := jsOrStr (findAttr el ".film-poster-img" "data-src") ""
  , type := jsTrim (findText el ".fdi-item:first")
  , duration := jsTrim (findText el ".fdi-duration")
  , episodes :=
    { sub := jsOrInt (jsParseInt (findText el ".tick-sub")) 0
    , dub := jsOrInt (jsParseInt (findText el ".tick-dub")) 0 } }

/-- Homepage extraction over a loaded document. -/
def extractHome (d : Doc) (now : String) : HomeData :=
  { spotlight := (d.select ".deslide-item").enum.map (fun p => mkSpotlightEntry p.1 p.2)
  , trending := (d.select "#trending-home .film_list-wrap .flw-item").map mkTrendingEntry
  , timestamp := now }

/-- Search-page extraction over a loaded document. -/
def extractSearch (d : Doc) (query : String) (page : Int) : SearchData :=
  { results := (d.select ".flw-item").map mkSearchEntry
  , currentPage := page
  , query := query }

/-- Details-page extraction over a loaded document; `id` is the
caller-supplied `animeId`, never read from the page. -/
def extractDetails (d : Doc) (animeId : String) : DetailsData :=
  { id := animeId
  , title := jsTrim (docText d ".film-name")
  , poster := jsOrStr (docAttr d ".film-poster-img" "src") ""
  , description := jsTrim (docText d ".film-description")
  , type := jsTrim (selText (d.selNext ".item-title:contains(\"Type:\")"))
  , status := jsTrim (selText (d.selNext ".item-title:contains(\"Status:\")"))
  , genres := (d.select ".item-list a").map (fun el => jsTrim el.text)
  , episodes :=
    { sub := jsOrInt (jsParseInt (docText d ".tick-sub")) 0
    , dub := jsOrInt (jsParseInt (docText d ".tick-dub")) 0 } }

/-! ### Extractor entry points (fetch + load + extract, with path trace) -/

/-- `getHomePage()`: fetch `/home`, load, extract. The second component is
the list of upstream paths fetched. -/
def getHomePage (upstream : String → FetchOutcome) (load : String → Doc)
    (now : String) : Except String HomeData × List String :=
  match fetchFromHiAnime upstream "/home" with
  | .error e => (.error e, ["/home"])
  | .ok html => (.ok (extractHome (load html) now), ["/home"])

/-- The search path, with the query percent-encoded and the page number
interpolated. -/
def searchPath (query : String) (page : Int) : String :=
  "/search?keyword=" ++ encodeURIComponent query ++ "&page=" ++ toString page

/-- `searchAnime(query, page)`. -/
def searchAnime (upstream : String → FetchOutcome) (load : String → Doc)
    (query : String) (page : Int) : Except String SearchData × List String :=
  match fetchFromHiAnime upstream (searchPath query page) with
  | .error e => (.error e, [searchPath query page])
  | .ok html => (.ok (extractSearch (load html) query page), [searchPath query page])

/-- `getAnimeDetails(animeId)`: fetches `/<animeId>`. -/
def getAnimeDetails (upstream : String → FetchOutcome) (load : String → Doc)
    (animeId : String) : Except String DetailsData × List String :=
  match fetchFromHiAnime upstream ("/" ++ animeId) with
  | .error e => (.error e, ["/" ++ animeId])
  | .ok html => (.ok (extractDetails (load html) animeId), ["/" ++ animeId])

/-! ### JSON values, as `res.json(...)` serializes them -/

/-- A JSON value; object member order matches the source's object literals. -/
inductive Json where
  | null
  | bool (b : Bool)
  | num (n : Int)
  | str (s : String)
  | arr (xs : List Json)
  | obj (fields : List (String × Json))

/-- Look a key up in a JSON object (first occurrence), `none` on non-objects. -/
def Json.getKey (j : Json) (k : String) : Option Json :=
  match j with
  | .obj fs => fs.lookup k
  | _ => none

/-- Serialization of `{ sub, dub }` under the source's literal keys. -/
def episodesJson (ec : EpisodeCounts) : Json :=
  .obj [("sub", .num ec.sub), ("dub", .num ec.dub)]

/-- Serialization of a spotlight entry. -/
def spotlightJson (e : SpotlightEntry) : Json :=
  .obj [("id", .str e.id), ("title", .str e.title),
        ("description", .str e.description), ("poster", .str e.poster),
        ("rank", .num (e.rank : Int))]

/-- Serialization of a trending entry. -/
def trendingJson (e : TrendingEntry) : Json :=
  .obj [("id", .str e.id), ("title", .str e.title), ("poster", .str e.poster),
        ("type", .str e.type), ("duration", .str e.duration)]

/-- Serialization of a search-result entry; episode counts live under the
key `episodes`, as in the source object literal. -/
def searchEntryJson (e : SearchEntry) : Json :=
  .obj [("id", .str e.id), ("title", .str e.title), ("poster", .str e.poster),
        ("type", .str e.type), ("duration", .str e.duration),
        ("episodes", episodesJson e.episodes)]

/-- Serialization of the `home` data object. -/
def homeDataJson (h : HomeData) : Json :=
  .obj [("spotlight", .arr (h.spotlight.map spotlightJson)),
        ("trending", .arr (h.trending.map trendingJson)),
        ("timestamp", .str h.timestamp)]

/-- Serialization of the `search` data object. -/
def searchDataJson (s : SearchData) : Json :=
  .obj [("results", .arr (s.results.map searchEntryJson)),
        ("currentPage", .num s.currentPage), ("query", .str s.query)]

/-- Serialization of the `details` data object; episode counts live under
the key `episodes`. -/
def detailsDataJson (d : DetailsData) : Json :=
  .obj [("id", .str d.id), ("title", .str d.title), ("poster", .str d.poster),
        ("description", .str d.description), ("type", .str d.type),
        ("status", .str d.status), ("genres", .arr (d.genres.map .str)),
        ("episodes", episodesJson d.episodes)]

/-- The `{success:true, data}` wrapper each extractor builds around its data. -/
def okEnvelope (dataJson : Json) : Json :=
  .obj [("success", .bool true), ("data", dataJson)]

/-- The `{success:false, error}` wrapper for 400 and 500 responses. -/
def errEnvelope (msg : String) : Json :=
  .obj [("success", .bool false), ("error", .str msg)]

/-- The static capability listing returned for unrecognized actions. -/
def catalogJson : Json :=
  .obj [("success", .bool true),
        ("message", .str "HiAnime API - Available endpoints"),
        ("endpoints", .arr
          [ .obj [("path", .str "/api/hianime?action=home"),
                  ("description", .str "Get homepage content")]
          , .obj [("path", .str "/api/hianime?action=search&query=naruto&page=1"),
                  ("description", .str "Search anime")]
          , .obj [("path", .str "/api/hianime?action=details&id=naruto-20"),
                  ("description", .str "Get anime details")]])]

/-! ### Request router -/

/-- An inbound request: the method and the `action`/`query`/`page`/`id`
query parameters (absent parameters are `none`). -/
structure Request where
  method : String
  action : Option String
  query : Option String
  page : Option String
  id : Option String

/-- An outbound response: HTTP status, the headers set via `setHeader`, and
the JSON body (`none` for the bare `end()` of the OPTIONS branch). -/
structure Response where
  status : Nat
  headers : List (String × String)
  body : Option Json

/-- The three CORS headers the handler sets before anything else. -/
def corsHeaders : List (String × String) :=
  [("Access-Control-Allow-Origin", "*"),
   ("Access-Control-Allow-Methods", "GET, OPTIONS"),
   ("Access-Control-Allow-Headers", "Content-Type")]

/-- Status and body of the response, plus the list of upstream paths
fetched: the OPTIONS short-circuit, then the `switch` on `action` (an
if-chain on strict string equality), with the `try`/`catch` mapping any
extractor error to a 500 envelope. -/
def handlerCore (upstream : String → FetchOutcome) (load : String → Doc)
    (now : String) (req : Request) : (Nat × Option Json) × List String :=
  if req.method = "OPTIONS" then ((200, none), [])
  else if req.action = some "home" then
    match getHomePage upstream load now with
    | (.ok hd, ps) => ((200, some (okEnvelope (homeDataJson hd))), ps)
    | (.error e, ps) => ((500, some (errEnvelope (jsMsgOr e))), ps)
  else if req.action = some "search" then
    if jsFalsy req.query then
      ((400, some (errEnvelope "Query parameter required")), [])
    else
      match searchAnime upstream load (req.query.getD "")
          (jsOrInt (jsParseIntOpt req.page) 1) with
      | (.ok sd, ps) => ((200, some (okEnvelope (searchDataJson sd))), ps)
      | (.error e, ps) => ((500, some (errEnvelope (jsMsgOr e))), ps)
  else if req.action = some "details" then
    if jsFalsy req.id then
      ((400, some (errEnvelope "ID parameter required")), [])
    else
      match getAnimeDetails upstream load (req.id.getD "") with
      | (.ok dd, ps) => ((200, some (okEnvelope (detailsDataJson dd))), ps)
      | (.error e, ps) => ((500, some (errEnvelope (jsMsgOr e))), ps)
  else ((200, some catalogJson), [])

/-- The full handler: the CORS headers are set unconditionally before any
dispatch, so every response carries them. -/
def handler (upstream : String → FetchOutcome) (load : String → Doc)
    (now : String) (req : Request) : Response × List String :=
  let core := handlerCore upstream load now req
  ({ status := core.1.1, headers := corsHeaders, body := core.1.2 }, core.2)

/-- Field `k` of the `data` object of a response's JSON body. -/
def respDataField (r : Response) (k : String) : Option Json :=
  match r.body with
  | none => none
  | some j =>
    match j.getKey "data" with
    | none => none
    | some dataJson => dataJson.getKey k

/-! ### Concrete fixtures used by witness theorems -/

/-- An element with no text, no attributes and no matching descendants. -/
def emptyElem : Elem := { text := "", attrs := [], find := fun _ => [] }

/-- A document where every selector matches nothing. -/
def emptyDoc : Doc := { select := fun _ => [], selNext := fun _ => [] }

/-- A loader that parses any markup into the empty document. -/
def loadEmpty : String → Doc := fun _ => emptyDoc

/-- An upstream that always answers 200 with an empty body. -/
def upstreamOk : String → FetchOutcome := fun _ => .response 200 "OK" ""

/-- An upstream that always answers 503. -/
def upstreamDown : String → FetchOutcome :=
  fun _ => .response 503 "Service Unavailable" ""

/-- A descendant node whose text is the negative badge `-3`. -/
def negBadgeNode : DomNode := { text := "-3", attrs := [] }

/-- A listing card whose `.tick-sub` badge reads `-3` and which matches
nothing else. -/
def negBadgeElem : Elem :=
  { text := "", attrs := []
  , find := fun s => if s = ".tick-sub" then [negBadgeNode] else [] }

/-- A details page whose `.tick-sub` selection has text `-3`. -/
def negBadgeDoc : Doc :=
  { select := fun s =>
      if s = ".tick-sub" then [{ text := "-3", attrs := [], find := fun _ => [] }]
      else []
  , selNext := fun _ => [] }

/-- A homepage document with two spotlight slides. -/
def twoSpotDoc : Doc :=
  { select := fun s => if s = ".deslide-item" then [emptyElem, emptyElem] else []
  , selNext := fun _ => [] }

/-! ### Small evaluation lemmas -/

/-- Selection text of the empty selection is the empty string. -/
theorem selText_nil : selText [] = "" := rfl

/-- Trimming the empty string yields the empty string. -/
theorem trim_empty : jsTrim "" = "" := by decide

/-- `parseInt` of the empty string is `NaN`. -/
theorem jsParseInt_empty : jsParseInt "" = none := by decide

/-- An error result of the home entry point is exactly a Fetcher error. -/
theorem getHomePage_error_iff (up : String → FetchOutcome) (load : String → Doc)
    (now e : String) :
    (getHomePage up load now).1 = .error e ↔
      fetchFromHiAnime up "/home" = .error e := by
  unfold getHomePage
  cases h : fetchFromHiAnime up "/home" <;> simp [h]

/-- An error result of the search entry point is exactly a Fetcher error. -/
theorem searchAnime_error_iff (up : String → FetchOutcome) (load : String → Doc)
    (q e : String) (pg : Int) :
    (searchAnime up load q pg).1 = .error e ↔
      fetchFromHiAnime up (searchPath q pg) = .error e := by
  unfold searchAnime
  cases h : fetchFromHiAnime up (searchPath q pg) <;> simp [h]

/-- An error result of the details entry point is exactly a Fetcher error. -/
theorem getAnimeDetails_error_iff (up : String → FetchOutcome) (load : String → Doc)
    (animeId e : String) :
    (getAnimeDetails up load animeId).1 = .error e ↔
      fetchFromHiAnime up ("/" ++ animeId) = .error e := by
  unfold getAnimeDetails
  cases h : fetchFromHiAnime up ("/" ++ animeId) <;> simp [h]

/-! ### Claims -/

/-- C2: for every markup, extraction never fails on its own — the result of
each of the three extractor entry points is an error exactly when the
Fetcher raised one, and with the Fetcher's own message; and every field
whose node is absent (its selection is empty) degrades to its default:
`""` for string fields, `0` for episode counts, `[]` for genres. -/
theorem c2_extractors_total_and_default (up : String → FetchOutcome)
    (load : String → Doc) (now q animeId e : String) (pg : Int)
    (d : Doc) (el : Elem) :
    ((getHomePage up load now).1 = .error e ↔
        fetchFromHiAnime up "/home" = .error e)
    ∧ ((searchAnime up load q pg).1 = .error e ↔
        fetchFromHiAnime up (searchPath q pg) = .error e)
    ∧ ((getAnimeDetails up load animeId).1 = .error e ↔
        fetchFromHiAnime up ("/" ++ animeId) = .error e)
    ∧ (d.select ".film-name" = [] → (extractDetails d animeId).title = "")
    ∧ (d.select ".film-poster-img" = [] → (extractDetails d animeId).poster = "")
    ∧ (d.select ".film-description" = [] →
        (extractDetails d animeId).description = "")
    ∧ (d.selNext ".item-title:contains(\"Type:\")" = [] →
        (extractDetails d animeId).type = "")
    ∧ (d.selNext ".item-title:contains(\"Status:\")" = [] →
        (extractDetails d animeId).status = "")
    ∧ (d.select ".item-list a" = [] → (extractDetails d animeId).genres = [])
    ∧ (d.select ".tick-sub" = [] → (extractDetails d animeId).episodes.sub = 0)
    ∧ (d.select ".tick-dub" = [] → (extractDetails d animeId).episodes.dub = 0)
    ∧ (el.find "a.film-poster" = [] → (mkSearchEntry el).id = "")
    ∧ (el.find ".film-name" = [] → (mkSearchEntry el).title = "")
    ∧ (el.find ".film-poster-img" = [] → (mkSearchEntry el).poster = "")
    ∧ (el.find ".fdi-item:first" = [] → (mkSearchEntry el).type = "")
    ∧ (el.find ".fdi-duration" = [] → (mkSearchEntry el).duration = "")
    ∧ (el.find ".tick-sub" = [] → (mkSearchEntry el).episodes.sub = 0)
    ∧ (el.find ".tick-dub" = [] → (mkSearchEntry el).episodes.dub = 0)
    ∧ (el.find "a.film-poster" = [] → (mkTrendingEntry el).id = "")
    ∧ (el.find ".film-name" = [] → (mkTrendingEntry el).title = "")
    ∧ (el.find ".film-poster-img" = [] → (mkTrendingEntry el).poster = "")
    ∧ (el.find ".fdi-item:first" = [] → (mkTrendingEntry el).type = "")
    ∧ (el.find ".fdi-duration" = [] → (mkTrendingEntry el).duration = "")
    ∧ (∀ i : Nat, el.find "a" = [] → (mkSpotlightEntry i el).id = "")
    ∧ (∀ i : Nat, el.find ".deslide-item-content h2" = [] →
        (mkSpotlightEntry i el).title = "")
    ∧ (∀ i : Nat, el.find ".deslide-item-content .sc-desc" = [] →
        (mkSpotlightEntry i el).description = "")
    ∧ (∀ i : Nat, el.find ".deslide-cover img" = [] →
        (mkSpotlightEntry i el).poster = "") := by
  refine ⟨getHomePage_error_iff up load now e,
          searchAnime_error_iff up load q e pg,
          getAnimeDetails_error_iff up load animeId e,
          ?_, ?_, ?_, ?_, ?_, ?_, ?_, ?_, ?_, ?_, ?_, ?_, ?_, ?_, ?_,
          ?_, ?_, ?_, ?_, ?_, ?_, ?_, ?_, ?_⟩ <;>
    first
    | (intro h
       simp [extractDetails, mkSearchEntry, mkTrendingEntry, docText,
             docAttr, selText, findText, findAttr, selAttr, jsOrStr,
             jsOrInt, h, jsTrim, trimLeftChars, trimRightChars, jsParseInt,
             jsTrimStart, takeDigitVals, lastPathSegment])
    | (intro i h
       simp [mkSpotlightEntry, findText, findAttr, selText, selAttr,
             lastPathSegment, jsSplitPop, splitOnChar, jsOrStr, h, jsTrim,
             trimLeftChars, trimRightChars])

/-- Witness for C2 at the empty document and empty element, where every
selection is empty; all hypotheses are discharged definitionally. -/
theorem c2_extractors_total_and_default_witness :
    ((getHomePage upstreamDown loadEmpty "t").1 = .error "HTTP 503: Service Unavailable" ↔
        fetchFromHiAnime upstreamDown "/home" = .error "HTTP 503: Service Unavailable")
    ∧ (extractDetails emptyDoc "x").title = ""
    ∧ (extractDetails emptyDoc "x").poster = ""
    ∧ (extractDetails emptyDoc "x").description = ""
    ∧ (extractDetails emptyDoc "x").type = ""
    ∧ (extractDetails emptyDoc "x").status = ""
    ∧ (extractDetails emptyDoc "x").genres = []
    ∧ (extractDetails emptyDoc "x").episodes.sub = 0
    ∧ (extractDetails emptyDoc "x").episodes.dub = 0
    ∧ (mkSearchEntry emptyElem).id = ""
    ∧ (mkSearchEntry emptyElem).title = ""
    ∧ (mkSearchEntry emptyElem).poster = ""
    ∧ (mkSearchEntry emptyElem).type = ""
    ∧ (mkSearchEntry emptyElem).duration = ""
    ∧ (mkSearchEntry emptyElem).episodes.sub = 0
    ∧ (mkSearchEntry emptyElem).episodes.dub = 0
    ∧ (mkTrendingEntry emptyElem).id = ""
    ∧ (mkTrendingEntry emptyElem).title = ""
    ∧ (mkTrendingEntry emptyElem).poster = ""
    ∧ (mkTrendingEntry emptyElem).type = ""
    ∧ (mkTrendingEntry emptyElem).duration = ""
    ∧ (mkSpotlightEntry 0 emptyElem).id = ""
    ∧ (mkSpotlightEntry 0 emptyElem).title = ""
    ∧ (mkSpotlightEntry 0 emptyElem).description = ""
    ∧ (mkSpotlightEntry 0 emptyElem).poster = "" := by
  obtain ⟨h1, h2, h3, h4, h5, h6, h7, h8, h9, h10, h11, h12, h13, h14,
          h15, h16, h17, h18, h19, h20, h21, h22, h23, h24, h25, h26,
          h27⟩ :=
    c2_extractors_total_and_default upstreamDown loadEmpty "t" "q" "x" "HTTP 503: Service Unavailable" 1 emptyDoc emptyElem
  exact ⟨h1, h4 rfl, h5 rfl, h6 rfl, h7 rfl, h8 rfl, h9 rfl, h10 rfl,
         h11 rfl, h12 rfl, h13 rfl, h14 rfl, h15 rfl, h16 rfl, h17 rfl,
         h18 rfl, h19 rfl, h20 rfl, h21 rfl, h22 rfl, h23 rfl,
         h24 0 rfl, h25 0 rfl, h26 0 rfl, h27 0 rfl⟩


/-- C1: a `search` request without a `query` parameter gets a 400 response
with the envelope `{success:false, error:"Query parameter required"}`, and a
`details` request without an `id` parameter gets a 400 response with
`{success:false, error:"ID parameter required"}`; in both cases the list of
upstream paths fetched is empty. -/
theorem c1_missing_param_400 (up : String → FetchOutcome) (load : String → Doc)
    (now : String) (req : Request) (hm : req.method = "GET") :
    (req.action = some "search" → req.query = none →
      handler up load now req =
        ({ status := 400, headers := corsHeaders
         , body := some (errEnvelope "Query parameter required") }, []))
    ∧ (req.action = some "details" → req.id = none →
      handler up load now req =
        ({ status := 400, headers := corsHeaders
         , body := some (errEnvelope "ID parameter required") }, [])) := by
  constructor
  · intro ha hq
    simp [handler, handlerCore, hm, ha, hq, jsFalsy]
  · intro ha hi
    simp [handler, handlerCore, hm, ha, hi, jsFalsy]

/-- Witness for C1 at a concrete request. -/
theorem c1_missing_param_400_witness :
    handler upstreamOk loadEmpty "t"
        { method := "GET", action := some "search", query := none
        , page := none, id := none } =
      ({ status := 400, headers := corsHeaders
       , body := some (errEnvelope "Query parameter required") }, [])
    ∧ handler upstreamOk loadEmpty "t"
        { method := "GET", action := some "details", query := none
        , page := none, id := none } =
      ({ status := 400, headers := corsHeaders
       , body := some (errEnvelope "ID parameter required") }, []) :=
  ⟨(c1_missing_param_400 upstreamOk loadEmpty "t" _ rfl).1 rfl rfl,
   (c1_missing_param_400 upstreamOk loadEmpty "t" _ rfl).2 rfl rfl⟩

/-- C9: a `search` request whose `query` is the empty string, and a
`details` request whose `id` is the empty string, are answered exactly as
if the parameter were absent: the same 400 envelope and no upstream call
(`!query` and `!id` are true for both `undefined` and `""`). -/
theorem c9_empty_param_like_absent (up : String → FetchOutcome)
    (load : String → Doc) (now : String) (req : Request)
    (hm : req.method = "GET") :
    (req.action = some "search" →
      handler up load now { req with query := some "" } =
        handler up load now { req with query := none }
      ∧ handler up load now { req with query := some "" } =
        ({ status := 400, headers := corsHeaders
         , body := some (errEnvelope "Query parameter required") }, []))
    ∧ (req.action = some "details" →
      handler up load now { req with id := some "" } =
        handler up load now { req with id := none }
      ∧ handler up load now { req with id := some "" } =
        ({ status := 400, headers := corsHeaders
         , body := some (errEnvelope "ID parameter required") }, [])) := by
  constructor
  · intro ha
    constructor <;> simp [handler, handlerCore, hm, ha, jsFalsy]
  · intro ha
    constructor <;> simp [handler, handlerCore, hm, ha, jsFalsy]

/-- Witness for C9 at a concrete request. -/
theorem c9_empty_param_like_absent_witness :
    (handler upstreamOk loadEmpty "t"
        { method := "GET", action := some "search", query := some ""
        , page := none, id := none } =
      handler upstreamOk loadEmpty "t"
        { method := "GET", action := some "search", query := none
        , page := none, id := none })
    ∧ (handler upstreamOk loadEmpty "t"
        { method := "GET", action := some "details", query := none
        , page := none, id := some "" } =
      handler upstreamOk loadEmpty "t"
        { method := "GET", action := some "details", query := none
        , page := none, id := none }) :=
  ⟨((c9_empty_param_like_absent upstreamOk loadEmpty "t"
      { method := "GET", action := some "search", query := some "x"
      , page := none, id := none } rfl).1 rfl).1,
   ((c9_empty_param_like_absent upstreamOk loadEmpty "t"
      { method := "GET", action := some "details", query := none
      , page := none, id := some "x" } rfl).2 rfl).1⟩

/-- The `data` member of a success envelope. -/
theorem okEnvelope_data (dj : Json) : (okEnvelope dj).getKey "data" = some dj := rfl

/-- The `id` member of a serialized details object is the structure's `id`. -/
theorem detailsDataJson_id (dd : DetailsData) :
    (detailsDataJson dd).getKey "id" = some (.str dd.id) := rfl

/-- C3: for a `details` request with a non-empty `id` whose fetch succeeds
on any markup whatsoever, the `id` field of the response's `data` object is
exactly the caller-supplied `id` parameter. -/
theorem c3_details_id_echo (up : String → FetchOutcome) (load : String → Doc)
    (now : String) (req : Request) (s html : String)
    (hm : req.method = "GET") (ha : req.action = some "details")
    (hi : req.id = some s) (hs : s ≠ "")
    (hf : fetchFromHiAnime up ("/" ++ s) = .ok html) :
    respDataField (handler up load now req).1 "id" = some (.str s)
    ∧ (extractDetails (load html) s).id = s := by
  constructor
  · simp [handler, handlerCore, hm, ha, hi, jsFalsy, hs, getAnimeDetails, hf,
          respDataField, okEnvelope_data, detailsDataJson_id, extractDetails]
  · simp [extractDetails]

/-- Witness for C3: a concrete `details` request against a page whose own
markup is unrelated to the id. -/
theorem c3_details_id_echo_witness :
    respDataField (handler upstreamOk loadEmpty "t"
        { method := "GET", action := some "details", query := none
        , page := none, id := some "naruto-20" }).1 "id" =
      some (.str "naruto-20") :=
  (c3_details_id_echo upstreamOk loadEmpty "t"
    { method := "GET", action := some "details", query := none
    , page := none, id := some "naruto-20" } "naruto-20" ""
    rfl rfl rfl (by decide) rfl).1

/-- C4 counterexample: on a card whose `.tick-sub` badge reads `-3`, the
serialized entry has no `episodeCounts` member (the counts live under
`episodes`) and the `sub` count is `-3`, a negative integer; likewise for
the details page. This refutes the claim as stated. -/
theorem c4_counterexample :
    (searchEntryJson (mkSearchEntry negBadgeElem)).getKey "episodeCounts" = none
    ∧ (detailsDataJson (extractDetails negBadgeDoc "x")).getKey "episodeCounts" = none
    ∧ (mkSearchEntry negBadgeElem).episodes.sub = -3
    ∧ (extractDetails negBadgeDoc "x").episodes.sub = -3
    ∧ ¬ (0 : Int) ≤ (mkSearchEntry negBadgeElem).episodes.sub := by
  refine ⟨rfl, rfl, by decide, by decide, by decide⟩

/-- C4 amended: in every search-result entry and in the details result the
sub/dub counts are exposed under a member named `episodes` holding integers
`sub` and `dub`; each count is `0` whenever the badge selection is empty or
its text has no parseable leading integer, but it is the parsed value —
possibly negative — otherwise. -/
theorem c4_amended_episodes_field (el : Elem) (d : Doc) (animeId : String) :
    (searchEntryJson (mkSearchEntry el)).getKey "episodes" =
        some (episodesJson (mkSearchEntry el).episodes)
    ∧ (detailsDataJson (extractDetails d animeId)).getKey "episodes" =
        some (episodesJson (extractDetails d animeId).episodes)
    ∧ (mkSearchEntry el).episodes.sub =
        jsOrInt (jsParseInt (findText el ".tick-sub")) 0
    ∧ (mkSearchEntry el).episodes.dub =
        jsOrInt (jsParseInt (findText el ".tick-dub")) 0
    ∧ (jsParseInt (findText el ".tick-sub") = none →
        (mkSearchEntry el).episodes.sub = 0)
    ∧ (jsParseInt (findText el ".tick-dub") = none →
        (mkSearchEntry el).episodes.dub = 0)
    ∧ (el.find ".tick-sub" = [] → (mkSearchEntry el).episodes.sub = 0)
    ∧ (el.find ".tick-dub" = [] → (mkSearchEntry el).episodes.dub = 0)
    ∧ (jsParseInt (docText d ".tick-sub") = none →
        (extractDetails d animeId).episodes.sub = 0)
    ∧ (jsParseInt (docText d ".tick-dub") = none →
        (extractDetails d animeId).episodes.dub = 0)
    ∧ (d.select ".tick-sub" = [] → (extractDetails d animeId).episodes.sub = 0)
    ∧ (d.select ".tick-dub" = [] → (extractDetails d animeId).episodes.dub = 0) := by
  refine ⟨rfl, rfl, rfl, rfl, ?_, ?_, ?_, ?_, ?_, ?_, ?_, ?_⟩ <;>
    intro h <;>
    first
    | (simp [mkSearchEntry, extractDetails, h, jsOrInt]; done)
    | (simp [mkSearchEntry, extractDetails, findText, docText, selText, h,
             jsOrInt, jsParseInt, jsTrimStart, trimLeftChars, takeDigitVals];
       done)

/-- Witness for C4's amended claim at the empty element and document. -/
theorem c4_amended_episodes_field_witness :
    (searchEntryJson (mkSearchEntry emptyElem)).getKey "episodes" =
        some (episodesJson (mkSearchEntry emptyElem).episodes)
    ∧ (mkSearchEntry emptyElem).episodes.sub = 0
    ∧ (mkSearchEntry emptyElem).episodes.dub = 0
    ∧ (extractDetails emptyDoc "x").episodes.sub = 0
    ∧ (extractDetails emptyDoc "x").episodes.dub = 0 := by
  obtain ⟨h1, h2, h3, h4, h5, h6, h7, h8, h9, h10, h11, h12⟩ :=
    c4_amended_episodes_field emptyElem emptyDoc "x"
  exact ⟨h1, h7 rfl, h8 rfl, h11 rfl, h12 rfl⟩

/-- A concrete search request whose `page` parameter is the string `-2`. -/
def reqNegPage : Request :=
  { method := "GET", action := some "search", query := some "naruto"
  , page := some "-2", id := none }

/-- The `currentPage` member of a serialized search data object. -/
theorem searchDataJson_currentPage (sd : SearchData) :
    (searchDataJson sd).getKey "currentPage" = some (.num sd.currentPage) := rfl

/-- C5 counterexample: with `page=-2` the response's `currentPage` is `-2`,
which is not a positive integer — the positive-integer precondition is not
enforced by the router. -/
theorem c5_counterexample :
    respDataField (handler upstreamOk loadEmpty "t" reqNegPage).1 "currentPage" =
      some (.num (-2))
    ∧ ¬ (0 : Int) < -2 := by
  constructor
  · rfl
  · decide

/-- C5 amended: the reported `currentPage` equals `parseInt(page) || 1` —
the page parameter parsed as an integer whenever that parse yields a
nonzero value (so a negative page is passed through unchanged), and `1`
whenever `page` is absent, unparsable, or parses to `0`. -/
theorem c5_amended_currentPage (up : String → FetchOutcome) (load : String → Doc)
    (now : String) (req : Request) (q html : String)
    (hm : req.method = "GET") (ha : req.action = some "search")
    (hq : req.query = some q) (hqne : q ≠ "")
    (hf : fetchFromHiAnime up
        (searchPath q (jsOrInt (jsParseIntOpt req.page) 1)) = .ok html) :
    respDataField (handler up load now req).1 "currentPage" =
      some (.num (jsOrInt (jsParseIntOpt req.page) 1))
    ∧ jsOrInt (jsParseIntOpt none) 1 = 1
    ∧ (∀ s : String, jsParseInt s = none → jsOrInt (jsParseIntOpt (some s)) 1 = 1)
    ∧ (∀ s : String, jsParseInt s = some 0 → jsOrInt (jsParseIntOpt (some s)) 1 = 1) := by
  refine ⟨?_, rfl, ?_, ?_⟩
  · simp [handler, handlerCore, hm, ha, hq, jsFalsy, hqne, searchAnime, hf,
          respDataField, okEnvelope_data, searchDataJson_currentPage,
          extractSearch]
  · intro s hn; simp [jsParseIntOpt, hn, jsOrInt]
  · intro s hz; simp [jsParseIntOpt, hz, jsOrInt]

/-- Witness for C5's amended claim: a negative page is reported as is; an
absent, unparsable, or zero page yields 1. -/
theorem c5_amended_currentPage_witness :
    respDataField (handler upstreamOk loadEmpty "t" reqNegPage).1 "currentPage" =
      some (.num (jsOrInt (jsParseIntOpt reqNegPage.page) 1))
    ∧ jsOrInt (jsParseIntOpt none) 1 = 1
    ∧ jsOrInt (jsParseIntOpt (some "abc")) 1 = 1
    ∧ jsOrInt (jsParseIntOpt (some "0")) 1 = 1 := by
  obtain ⟨h1, h2, h3, h4⟩ :=
    c5_amended_currentPage upstreamOk loadEmpty "t" reqNegPage "naruto" ""
      rfl rfl rfl (by decide) rfl
  exact ⟨h1, h2, h3 "abc" (by decide), h4 "0" (by decide)⟩

/-- C6: the spotlight, trending and search-result sequences have exactly
one entry per matched node, the `i`-th entry being extracted from the
`i`-th matched node (document order preserved), and the spotlight `rank` is
`i + 1` at position `i`, hence 1-based and strictly increasing. -/
theorem c6_order_and_rank (d : Doc) (now q : String) (pg : Int) :
    (extractHome d now).spotlight.length = (d.select ".deslide-item").length
    ∧ (extractHome d now).trending.length =
        (d.select "#trending-home .film_list-wrap .flw-item").length
    ∧ (extractSearch d q pg).results.length = (d.select ".flw-item").length
    ∧ (∀ i : Nat, (extractHome d now).spotlight.get? i =
        ((d.select ".deslide-item").get? i).map (mkSpotlightEntry i))
    ∧ (∀ i : Nat, (extractHome d now).trending.get? i =
        ((d.select "#trending-home .film_list-wrap .flw-item").get? i).map
          mkTrendingEntry)
    ∧ (∀ i : Nat, (extractSearch d q pg).results.get? i =
        ((d.select ".flw-item").get? i).map mkSearchEntry)
    ∧ (∀ (i : Nat) (e : SpotlightEntry),
        (extractHome d now).spotlight.get? i = some e → e.rank = i + 1)
    ∧ (∀ (i j : Nat) (ei ej : SpotlightEntry), i < j →
        (extractHome d now).spotlight.get? i = some ei →
        (extractHome d now).spotlight.get? j = some ej →
        ei.rank < ej.rank) := by
  have hspot : ∀ i : Nat, (extractHome d now).spotlight.get? i =
      ((d.select ".deslide-item").get? i).map (mkSpotlightEntry i) := by
    intro i
    simp only [extractHome, List.get?_map, List.get?_enum]
    cases (d.select ".deslide-item").get? i <;> simp
  have hrank : ∀ (i : Nat) (e : SpotlightEntry),
      (extractHome d now).spotlight.get? i = some e → e.rank = i + 1 := by
    intro i e he
    rw [hspot i] at he
    cases hx : (d.select ".deslide-item").get? i with
    | none => rw [hx] at he; exact absurd he (by simp)
    | some a =>
      rw [hx] at he
      have h2 : mkSpotlightEntry i a = e := by simpa using he
      rw [← h2]
      rfl
  refine ⟨?_, ?_, ?_, hspot, ?_, ?_, hrank, ?_⟩
  · simp [extractHome]
  · simp [extractHome]
  · simp [extractSearch]
  · intro i
    simp [extractHome, List.get?_map]
  · intro i
    simp [extractSearch, List.get?_map]
  · intro i j ei ej hij hi hj
    rw [hrank i ei hi, hrank j ej hj]
    omega

/-- Witness for C6 at a homepage document with two spotlight slides. -/
theorem c6_order_and_rank_witness :
    (extractHome twoSpotDoc "t").spotlight.length =
        (twoSpotDoc.select ".deslide-item").length
    ∧ (extractHome twoSpotDoc "t").spotlight.get? 0 =
        ((twoSpotDoc.select ".deslide-item").get? 0).map (mkSpotlightEntry 0)
    ∧ (mkSpotlightEntry 0 emptyElem).rank = 0 + 1
    ∧ (mkSpotlightEntry 0 emptyElem).rank < (mkSpotlightEntry 1 emptyElem).rank := by
  obtain ⟨h1, h2, h3, h4, h5, h6, h7, h8⟩ := c6_order_and_rank twoSpotDoc "t" "q" 1
  exact ⟨h1, h4 0, h7 0 (mkSpotlightEntry 0 emptyElem) rfl,
         h8 0 1 (mkSpotlightEntry 0 emptyElem) (mkSpotlightEntry 1 emptyElem)
           (by decide) rfl rfl⟩

/-- C7: when the Fetcher fails — any non-2xx upstream status (whose error
message carries `HTTP <status>: <statusText>`) or a network error — the
handler answers 500 with `{success:false, error}` where the error string is
non-empty, and exactly one upstream fetch was attempted (no retry). -/
theorem c7_upstream_failure_500 (up : String → FetchOutcome) (load : String → Doc)
    (now : String) (req : Request) (q s e : String) (hm : req.method = "GET") :
    (req.action = some "home" → fetchFromHiAnime up "/home" = .error e →
      handler up load now req =
        ({ status := 500, headers := corsHeaders
         , body := some (errEnvelope (jsMsgOr e)) }, ["/home"]))
    ∧ (req.action = some "search" → req.query = some q → q ≠ "" →
      fetchFromHiAnime up
          (searchPath q (jsOrInt (jsParseIntOpt req.page) 1)) = .error e →
      handler up load now req =
        ({ status := 500, headers := corsHeaders
         , body := some (errEnvelope (jsMsgOr e)) },
         [searchPath q (jsOrInt (jsParseIntOpt req.page) 1)]))
    ∧ (req.action = some "details" → req.id = some s → s ≠ "" →
      fetchFromHiAnime up ("/" ++ s) = .error e →
      handler up load now req =
        ({ status := 500, headers := corsHeaders
         , body := some (errEnvelope (jsMsgOr e)) }, ["/" ++ s]))
    ∧ jsMsgOr e ≠ ""
    ∧ (∀ (st : Nat) (stTxt bdy : String), respOk st = false →
        fetchFromHiAnime (fun _ => .response st stTxt bdy) "/home" =
          .error ("HTTP " ++ toString st ++ ": " ++ stTxt)) := by
  refine ⟨?_, ?_, ?_, ?_, ?_⟩
  · intro ha hf
    simp [handler, handlerCore, hm, ha, getHomePage, hf]
  · intro ha hq hqne hf
    simp [handler, handlerCore, hm, ha, hq, jsFalsy, hqne, searchAnime, hf]
  · intro ha hi hsne hf
    simp [handler, handlerCore, hm, ha, hi, jsFalsy, hsne, getAnimeDetails, hf]
  · by_cases he : e = "" <;> simp [jsMsgOr, he]
  · intro st stTxt bdy hst
    simp [fetchFromHiAnime, hst]

/-- Witness for C7: a concrete 503 upstream for each of the three actions. -/
theorem c7_upstream_failure_500_witness :
    handler upstreamDown loadEmpty "t"
        { method := "GET", action := some "home", query := none
        , page := none, id := none } =
      ({ status := 500, headers := corsHeaders
       , body := some (errEnvelope (jsMsgOr "HTTP 503: Service Unavailable")) },
       ["/home"])
    ∧ handler upstreamDown loadEmpty "t"
        { method := "GET", action := some "search", query := some "naruto"
        , page := none, id := none } =
      ({ status := 500, headers := corsHeaders
       , body := some (errEnvelope (jsMsgOr "HTTP 503: Service Unavailable")) },
       [searchPath "naruto" (jsOrInt (jsParseIntOpt none) 1)])
    ∧ handler upstreamDown loadEmpty "t"
        { method := "GET", action := some "details", query := none
        , page := none, id := some "naruto-20" } =
      ({ status := 500, headers := corsHeaders
       , body := some (errEnvelope (jsMsgOr "HTTP 503: Service Unavailable")) },
       ["/" ++ "naruto-20"])
    ∧ jsMsgOr "HTTP 503: Service Unavailable" ≠ "" := by
  refine ⟨?_, ?_, ?_, ?_⟩
  · exact (c7_upstream_failure_500 upstreamDown loadEmpty "t" _ "q" "s"
      "HTTP 503: Service Unavailable" rfl).1 rfl rfl
  · exact (c7_upstream_failure_500 upstreamDown loadEmpty "t" _ "naruto" "s"
      "HTTP 503: Service Unavailable" rfl).2.1 rfl rfl (by decide) rfl
  · exact (c7_upstream_failure_500 upstreamDown loadEmpty "t" _ "q" "naruto-20"
      "HTTP 503: Service Unavailable" rfl).2.2.1 rfl rfl (by decide) rfl
  · exact (c7_upstream_failure_500 upstreamDown loadEmpty "t"
      { method := "GET", action := some "home", query := none
      , page := none, id := none } "q" "s"
      "HTTP 503: Service Unavailable" rfl).2.2.2.1

/-- C8: a GET request whose `action` is absent or any value other than
`home`, `search`, `details` is answered 200 with the constant capability
catalog and no upstream fetch, and the response does not depend on the
`query`, `page` or `id` parameters (nor on the upstream or the markup). -/
theorem c8_catalog_for_unknown_action (up up2 : String → FetchOutcome)
    (load load2 : String → Doc) (now now2 : String) (req req2 : Request)
    (hm : req.method = "GET")
    (h1 : req.action ≠ some "home") (h2 : req.action ≠ some "search")
    (h3 : req.action ≠ some "details")
    (hm2 : req2.method = "GET")
    (h4 : req2.action ≠ some "home") (h5 : req2.action ≠ some "search")
    (h6 : req2.action ≠ some "details") :
    handler up load now req =
      ({ status := 200, headers := corsHeaders, body := some catalogJson }, [])
    ∧ handler up load now req = handler up2 load2 now2 req2 := by
  have e1 : handler up load now req =
      ({ status := 200, headers := corsHeaders, body := some catalogJson }, []) := by
    simp [handler, handlerCore, hm, h1, h2, h3]
  have e2 : handler up2 load2 now2 req2 =
      ({ status := 200, headers := corsHeaders, body := some catalogJson }, []) := by
    simp [handler, handlerCore, hm2, h4, h5, h6]
  exact ⟨e1, e1.trans e2.symm⟩

/-- Witness for C8 at two concrete requests with different extra
parameters. -/
theorem c8_catalog_for_unknown_action_witness :
    handler upstreamOk loadEmpty "t"
        { method := "GET", action := some "bogus", query := none
        , page := none, id := none } =
      ({ status := 200, headers := corsHeaders, body := some catalogJson }, [])
    ∧ handler upstreamOk loadEmpty "t"
        { method := "GET", action := some "bogus", query := none
        , page := none, id := none } =
      handler upstreamDown loadEmpty "u"
        { method := "GET", action := none, query := some "naruto"
        , page := some "7", id := some "x" } :=
  c8_catalog_for_unknown_action upstreamOk upstreamDown loadEmpty loadEmpty
    "t" "u" _ _ rfl (by decide) (by decide) (by decide) rfl
    (by decide) (by decide) (by decide)

/-- C10: every response of the handler — any method, any action, any
outcome — carries the three CORS headers, which are set before any
dispatch. -/
theorem c10_cors_headers_always (up : String → FetchOutcome)
    (load : String → Doc) (now : String) (req : Request) :
    (handler up load now req).1.headers = corsHeaders
    ∧ ("Access-Control-Allow-Origin", "*") ∈ (handler up load now req).1.headers
    ∧ ("Access-Control-Allow-Methods", "GET, OPTIONS") ∈
        (handler up load now req).1.headers
    ∧ ("Access-Control-Allow-Headers", "Content-Type") ∈
        (handler up load now req).1.headers := by
  refine ⟨rfl, ?_, ?_, ?_⟩ <;> simp [handler, corsHeaders]

end AnimeApi
